import Mathlib

/-!
Verification development for the cube-site slice-rotation widget.

The definitions below are a shallow embedding of the rotation/grid core of
src/main.js (variant A).  Numeric state is modelled in exact arithmetic:
positions are rational vectors, grid coordinates are integer triples, and
orientations are integer 3x3 rotation matrices (the matrix of the cube
quaternion; a unit quaternion q and its negation -q act identically on
positions and on the Euler extraction used by snapQuaternion, so the matrix
carries all observable information).  Angles are measured in quarter turns,
so the source expression Math.round(angle / (PI/2)) * (PI/2) becomes a
rounding of the quarter-turn count; at the end of a completed 90-degree
slice rotation the trigonometric values cos(d*PI/2), sin(d*PI/2) are exact,
and the grid rounding in the source absorbs floating-point error, so the
exact model agrees with the source on every completed-rotation observation.
-/

/-- CONFIGURATION constants from src/main.js lines 33-36. -/
def SEGMENTS : ℚ := 3

def GAP : ℚ := 2 / 100

def CUBE_SIZE : ℚ := 2

def SEGMENT_SIZE : ℚ := (CUBE_SIZE - GAP * (SEGMENTS - 1)) / SEGMENTS

/-- Grid spacing used for sub-cube placement: SEGMENT_SIZE + GAP. -/
def spacing : ℚ := SEGMENT_SIZE + GAP

/-- Grid offset (SEGMENTS - 1) / 2 from the construction loop and the snap
step (src/main.js lines 459, 648). -/
def offsetQ : ℚ := (SEGMENTS - 1) / 2

/-- Integer grid coordinate triple (x, y, z). -/
abbrev Grid3 := ℤ × ℤ × ℤ

/-- Rational position vector (exact model of a THREE.Vector3). -/
abbrev V3 := ℚ × ℚ × ℚ

/-- The three rotation axes accepted by rotateSlice. -/
inductive Axis where
  | x
  | y
  | z
deriving DecidableEq, Repr

/-- Coordinate of a grid triple along an axis (the slice test
`pos.x === index` etc., src/main.js lines 601-606). -/
def axisCoord (a : Axis) (g : Grid3) : ℤ :=
  match a with
  | .x => g.1
  | .y => g.2.1
  | .z => g.2.2

/-- Integer 3x3 matrix, row major; models the rotation matrix of a cube
orientation quaternion. -/
structure M3 where
  m11 : ℤ
  m12 : ℤ
  m13 : ℤ
  m21 : ℤ
  m22 : ℤ
  m23 : ℤ
  m31 : ℤ
  m32 : ℤ
  m33 : ℤ
deriving DecidableEq, Repr

/-- Matrix product. -/
def M3.mul (A B : M3) : M3 where
  m11 := A.m11 * B.m11 + A.m12 * B.m21 + A.m13 * B.m31
  m12 := A.m11 * B.m12 + A.m12 * B.m22 + A.m13 * B.m32
  m13 := A.m11 * B.m13 + A.m12 * B.m23 + A.m13 * B.m33
  m21 := A.m21 * B.m11 + A.m22 * B.m21 + A.m23 * B.m31
  m22 := A.m21 * B.m12 + A.m22 * B.m22 + A.m23 * B.m32
  m23 := A.m21 * B.m13 + A.m22 * B.m23 + A.m23 * B.m33
  m31 := A.m31 * B.m11 + A.m32 * B.m21 + A.m33 * B.m31
  m32 := A.m31 * B.m12 + A.m32 * B.m22 + A.m33 * B.m32
  m33 := A.m31 * B.m13 + A.m32 * B.m23 + A.m33 * B.m33

/-- Identity matrix (initial cube orientation: default quaternion). -/
def M3.id1 : M3 := ⟨1, 0, 0, 0, 1, 0, 0, 0, 1⟩

/-- Reduce a quarter-turn count to its representative in [0, 4). -/
def qIdx (j : ℤ) : ℤ := ((j % 4) + 4) % 4

/-- cos of j quarter turns (exact value of cos(j*PI/2)). -/
def cosQT (j : ℤ) : ℤ :=
  if qIdx j = 0 then 1 else if qIdx j = 2 then -1 else 0

/-- sin of j quarter turns (exact value of sin(j*PI/2)). -/
def sinQT (j : ℤ) : ℤ :=
  if qIdx j = 1 then 1 else if qIdx j = 3 then -1 else 0

/-- Rotation matrix about the x axis by a quarter turns. -/
def RXm (a : ℤ) : M3 := ⟨1, 0, 0, 0, cosQT a, -(sinQT a), 0, sinQT a, cosQT a⟩

/-- Rotation matrix about the y axis by b quarter turns. -/
def RYm (b : ℤ) : M3 := ⟨cosQT b, 0, sinQT b, 0, 1, 0, -(sinQT b), 0, cosQT b⟩

/-- Rotation matrix about the z axis by c quarter turns. -/
def RZm (c : ℤ) : M3 := ⟨cosQT c, -(sinQT c), 0, sinQT c, cosQT c, 0, 0, 0, 1⟩

/-- Rotation matrix for XYZ-order Euler angles (a, b, c) quarter turns:
M = RX(a) * RY(b) * RZ(c), the convention of THREE.Euler order XYZ used by
snapQuaternion via setFromQuaternion / setFromEuler. -/
def eulerToMat (a b c : ℤ) : M3 := (RXm a).mul ((RYm b).mul (RZm c))

/-- Exact atan2 in quarter turns for the argument pairs produced by
axis-aligned rotation matrices (at least one component zero, as in the
Euler extraction of THREE.Euler.setFromRotationMatrix): atan2(0, pos) = 0,
atan2(pos, 0) = 1, atan2(neg, 0) = -1, atan2(0, neg) = 2, atan2(0, 0) = 0. -/
def atan2QT (y x : ℤ) : ℤ :=
  if 0 < x then 0 else if 0 < y then 1 else if y < 0 then -1
  else if x < 0 then 2 else 0

/-- Exact asin(clamp(t, -1, 1)) in quarter turns for integer t. -/
def asinQT (t : ℤ) : ℤ := if t ≤ -1 then -1 else if 1 ≤ t then 1 else 0

/-- XYZ-order Euler extraction in quarter turns, mirroring
THREE.Euler.setFromRotationMatrix for order XYZ:
y = asin(clamp(m13)); in the non-degenerate branch (for integer entries,
abs(m13) < 0.9999999 means m13 = 0) x = atan2(-m23, m33) and
z = atan2(-m12, m11); otherwise x = atan2(m32, m22) and z = 0. -/
def matToEulerQT (M : M3) : ℤ × ℤ × ℤ :=
  if M.m13 = 0 then
    (atan2QT (-M.m23) M.m33, asinQT M.m13, atan2QT (-M.m12) M.m11)
  else
    (atan2QT M.m32 M.m22, asinQT M.m13, 0)

/-- snapQuaternion from src/main.js lines 676-683: convert the orientation
to XYZ Euler angles, round each independently to the nearest multiple of 90
degrees (Math.round of the quarter-turn count; Math.round and Mathlib round
both send halves up), and rebuild the orientation from the rounded angles. -/
def snapQuaternion (M : M3) : M3 :=
  let e := matToEulerQT M
  eulerToMat (round ((e.1 : ℚ))) (round ((e.2.1 : ℚ))) (round ((e.2.2 : ℚ)))

/-- Single-axis rotation matrix for rotateSlice: the matrix of
setFromAxisAngle(axis, d * PI/2). -/
def rotM (a : Axis) (d : ℤ) : M3 :=
  match a with
  | .x => RXm d
  | .y => RYm d
  | .z => RZm d

/-- Exact value of position.applyQuaternion for the full-angle rotation
quaternion of rotateSlice (angle d * PI/2 about the chosen axis). -/
def rotVec (a : Axis) (d : ℤ) (p : V3) : V3 :=
  match a with
  | .x => (p.1,
           (cosQT d : ℚ) * p.2.1 - (sinQT d : ℚ) * p.2.2,
           (sinQT d : ℚ) * p.2.1 + (cosQT d : ℚ) * p.2.2)
  | .y => ((cosQT d : ℚ) * p.1 + (sinQT d : ℚ) * p.2.2,
           p.2.1,
           -(sinQT d : ℚ) * p.1 + (cosQT d : ℚ) * p.2.2)
  | .z => ((cosQT d : ℚ) * p.1 - (sinQT d : ℚ) * p.2.1,
           (sinQT d : ℚ) * p.1 + (cosQT d : ℚ) * p.2.1,
           p.2.2)

/-- Exact grid slot position, (grid - offset) * (SEGMENT_SIZE + GAP) on each
axis (src/main.js lines 460-464 and 656-660). -/
def gridToPos (g : Grid3) : V3 :=
  (((g.1 : ℚ) - offsetQ) * spacing,
   ((g.2.1 : ℚ) - offsetQ) * spacing,
   ((g.2.2 : ℚ) - offsetQ) * spacing)

/-- Grid recomputation at rotation completion: round each continuous
coordinate back to the nearest integer grid slot,
Math.round(position / (SEGMENT_SIZE + GAP) + offset)
(src/main.js lines 648-651). -/
def posToGrid (p : V3) : Grid3 :=
  (round (p.1 / spacing + offsetQ),
   round (p.2.1 / spacing + offsetQ),
   round (p.2.2 / spacing + offsetQ))

/-- A sub-cube: its grid bookkeeping entry (cube.userData), its position
and its orientation matrix. -/
structure SubCube where
  grid : Grid3
  pos : V3
  ori : M3
deriving DecidableEq, Repr

/-- Effect of one completed rotateSlice animation on one sub-cube: cubes in
the selected slice get their position rotated by the full-angle quaternion,
their orientation left-multiplied by it, then grid recomputed by rounding,
position re-derived from the grid, and orientation snapped
(src/main.js lines 601-664); other cubes are untouched. -/
def stepCube (a : Axis) (i d : ℤ) (c : SubCube) : SubCube :=
  if axisCoord a c.grid = i then
    let p1 := rotVec a d c.pos
    let m1 := (rotM a d).mul c.ori
    let g := posToGrid p1
    { grid := g, pos := gridToPos g, ori := snapQuaternion m1 }
  else c

/-- A recorded move (src/main.js line 596). -/
structure Move where
  axis : Axis
  index : ℤ
  dir : ℤ
deriving DecidableEq, Repr

/-- A decoration dot as seen by checkIfSolved: its world position and its
userData.colorHex tag. -/
structure DotW where
  pos : V3
  colorHex : ℕ
deriving DecidableEq, Repr

/-- The mutable module state of src/main.js that the claims refer to.
The dots field is the list of decoration markers with their current world
positions (checkIfSolved reads them through getWorldPosition). -/
structure CubeState where
  cubes : List SubCube
  isAnimating : Bool
  moveHistory : List Move
  isSolved : Bool
  isDarkMode : Bool
  hasBeenMixed : Bool
  bloomEnabled : Bool
  chromaticEnabled : Bool
  darkModeClass : Bool
  introComplete : Bool
  materialPreset : ℤ
  currentFace : ℤ
  dots : List DotW
deriving DecidableEq, Repr

/-- rotateSlice (src/main.js lines 586-673) as a state transformer, observed
at completion of the animation.  A call while a rotation is in flight
resolves immediately and changes nothing; otherwise the move is optionally
recorded, the slice is rotated and snapped, and the isAnimating flag ends
cleared. -/
def rotateSlice (a : Axis) (i d : ℤ) (recordMove : Bool) (st : CubeState) :
    CubeState :=
  if st.isAnimating then st
  else
    { st with
      cubes := st.cubes.map (stepCube a i d),
      moveHistory :=
        if recordMove then st.moveHistory ++ [⟨a, i, d⟩] else st.moveHistory,
      isSolved := if recordMove then false else st.isSolved,
      isAnimating := false }

/-- Outward world-space face directions used by checkIfSolved. -/
inductive FaceDir where
  | px
  | nx
  | py
  | ny
  | pz
  | nz
deriving DecidableEq, Repr

/-- The fixed distance threshold CUBE_SIZE / 2 - 0.1 (src/main.js line 694). -/
def threshold : ℚ := CUBE_SIZE / 2 - 1 / 10

/-- Face classification of a dot by its world position: the first direction
of the chain +x, -x, +y, -y, +z, -z whose threshold test holds
(src/main.js lines 704-709); none if the dot is near the center. -/
def classifyDot (p : V3) : Option FaceDir :=
  if threshold < p.1 then some .px
  else if p.1 < -threshold then some .nx
  else if threshold < p.2.1 then some .py
  else if p.2.1 < -threshold then some .ny
  else if threshold < p.2.2 then some .pz
  else if p.2.2 < -threshold then some .nz
  else none

/-- Color tags collected for one face group, in traversal order. -/
def faceColors (dots : List DotW) (f : FaceDir) : List ℕ :=
  (dots.filter (fun dt => classifyDot dt.pos == some f)).map (fun dt => dt.colorHex)

/-- Per-face check of checkIfSolved (src/main.js lines 715-723): the group
must hold exactly 9 tags and every tag must equal the first one. -/
def faceGroupOk (colors : List ℕ) : Bool :=
  if colors.length ≠ 9 then false
  else
    match colors with
    | [] => true
    | c0 :: _ => colors.all (fun c => c == c0)

/-- All six face directions, in the iteration order of the faceDots record. -/
def faceDirs : List FaceDir := [.px, .nx, .py, .ny, .pz, .nz]

/-- checkIfSolved (src/main.js lines 686-726) over a dot layout. -/
def checkIfSolved (dots : List DotW) : Bool :=
  faceDirs.all (fun f => faceGroupOk (faceColors dots f))

/-- checkForSolve (src/main.js lines 730-755): first check after the latch
was reset only arms the hasBeenMixed latch; a later check that finds the
cube solved toggles dark mode, applies the matching visual state (body
class, bloom and chromatic passes, and the default material preset when
entering dark mode) and resets the latch.  Returns the source return value
with the updated state. -/
def checkForSolve (st : CubeState) : Bool × CubeState :=
  if !st.hasBeenMixed then
    (false, { st with hasBeenMixed := true })
  else if checkIfSolved st.dots then
    let dm := !st.isDarkMode
    (true,
      { st with
        isDarkMode := dm,
        darkModeClass := dm,
        bloomEnabled := dm,
        chromaticEnabled := dm,
        materialPreset := if dm then -1 else st.materialPreset,
        hasBeenMixed := false })
  else (false, st)

/-- The fixed face-to-move table (src/main.js lines 573-580). -/
def faceToMove (f : Fin 6) : Move :=
  match f with
  | 0 => ⟨.x, 2, 1⟩
  | 1 => ⟨.x, 0, -1⟩
  | 2 => ⟨.y, 2, 1⟩
  | 3 => ⟨.y, 0, -1⟩
  | 4 => ⟨.z, 2, 1⟩
  | 5 => ⟨.z, 0, -1⟩

/-- navigateToFace (src/main.js lines 997-1028): ignored while a rotation is
in flight or before the intro completes; otherwise performs the preassigned
slice rotation with recordMove = false, applies the face material preset and
current face, and the scheduled checkForSolve then runs. -/
def navigateToFace (f : Fin 6) (st : CubeState) : CubeState :=
  if st.isAnimating || !st.introComplete then st
  else
    let mv := faceToMove f
    let st1 := rotateSlice mv.axis mv.index mv.dir false st
    let st2 := { st1 with materialPreset := (f : ℤ), currentFace := (f : ℤ) }
    (checkForSolve st2).2

/-- Shell predicate of the construction loop (src/main.js lines 382-385):
only cells touching the outside are instantiated. -/
def isEdgeCell (x y z : ℕ) : Bool :=
  x == 0 || x == 2 || y == 0 || y == 2 || z == 0 || z == 2

/-- The 26 sub-cubes built at startup (src/main.js lines 378-471): grid
coordinates over the shell, position derived from the grid, identity
orientation. -/
def smallCubes : List SubCube :=
  (List.range 3).flatMap fun x =>
    (List.range 3).flatMap fun y =>
      (List.range 3).filterMap fun z =>
        if isEdgeCell x y z then
          some { grid := ((x : ℤ), (y : ℤ), (z : ℤ)),
                 pos := gridToPos ((x : ℤ), (y : ℤ), (z : ℤ)),
                 ori := M3.id1 }
        else none

/-- The rest state after the intro animation finishes: cube solved, no
history, no latch, light mode.  Decoration dots are not tracked here; the
solved-detector claims quantify over dot layouts directly. -/
def initState : CubeState where
  cubes := smallCubes
  isAnimating := false
  moveHistory := []
  isSolved := true
  isDarkMode := false
  hasBeenMixed := false
  bloomEnabled := false
  chromaticEnabled := false
  darkModeClass := false
  introComplete := true
  materialPreset := -1
  currentFace := -1
  dots := []

/-- Induced action of a completed rotation on integer grid coordinates:
center the coordinates, apply the quarter-turn rotation, uncenter. -/
def rotGrid (a : Axis) (d : ℤ) (g : Grid3) : Grid3 :=
  match a with
  | .x => (g.1,
           1 + cosQT d * (g.2.1 - 1) - sinQT d * (g.2.2 - 1),
           1 + sinQT d * (g.2.1 - 1) + cosQT d * (g.2.2 - 1))
  | .y => (1 + cosQT d * (g.1 - 1) + sinQT d * (g.2.2 - 1),
           g.2.1,
           1 - sinQT d * (g.1 - 1) + cosQT d * (g.2.2 - 1))
  | .z => (1 + cosQT d * (g.1 - 1) - sinQT d * (g.2.1 - 1),
           1 + sinQT d * (g.1 - 1) + cosQT d * (g.2.1 - 1),
           g.2.2)

/-- Grid-level effect of rotateSlice on one coordinate: rotate it if it lies
in the selected slice, otherwise leave it. -/
def sliceStepGrid (a : Axis) (i d : ℤ) (g : Grid3) : Grid3 :=
  if axisCoord a g = i then rotGrid a d g else g

/-- A grid coordinate is valid when every component lies in 0..2. -/
def gridInRange (g : Grid3) : Prop :=
  0 ≤ g.1 ∧ g.1 ≤ 2 ∧ 0 ≤ g.2.1 ∧ g.2.1 ≤ 2 ∧ 0 ≤ g.2.2 ∧ g.2.2 ≤ 2

instance : DecidablePred gridInRange := fun g => by
  unfold gridInRange
  infer_instance

/-- Orientations representable as XYZ Euler angles in whole quarter turns:
exactly the 24 axis-aligned rotations. -/
def isOct (M : M3) : Prop := ∃ a b c : ℤ, M = eulerToMat a b c

/-- Position snap of the completion step: recompute the grid slot by
rounding, then re-derive the exact position from it. -/
def posSnap (p : V3) : V3 := gridToPos (posToGrid p)

/-- The six face-center sub-cube coordinates (exactly one component is 0
or 2). -/
def faceCenterGrids : List Grid3 :=
  [(0, 1, 1), (2, 1, 1), (1, 0, 1), (1, 2, 1), (1, 1, 0), (1, 1, 2)]

lemma spacing_ne_zero : spacing ≠ 0 := by
  norm_num [spacing, SEGMENT_SIZE, GAP, CUBE_SIZE, SEGMENTS]

lemma offsetQ_one : offsetQ = 1 := by
  norm_num [offsetQ, SEGMENTS]

lemma round_slot (k : ℤ) : round (((k : ℚ) - 1) * spacing / spacing + 1) = k := by
  rw [mul_div_cancel_right₀ _ spacing_ne_zero]
  rw [show ((k : ℚ) - 1 + 1) = ((k : ℚ)) by ring, round_intCast]

lemma posToGrid_gridToPos (g : Grid3) : posToGrid (gridToPos g) = g := by
  obtain ⟨gx, gy, gz⟩ := g
  simp only [posToGrid, gridToPos, offsetQ_one, Prod.mk.injEq]
  exact ⟨round_slot gx, round_slot gy, round_slot gz⟩

lemma rotVec_gridToPos (a : Axis) (d : ℤ) (g : Grid3) :
    rotVec a d (gridToPos g) = gridToPos (rotGrid a d g) := by
  obtain ⟨gx, gy, gz⟩ := g
  cases a <;>
    · simp only [rotVec, gridToPos, rotGrid, offsetQ_one, Prod.mk.injEq]
      refine ⟨?_, ?_, ?_⟩ <;> push_cast <;> ring

lemma qIdx_qIdx (j : ℤ) : qIdx (qIdx j) = qIdx j := by
  unfold qIdx
  omega

lemma cosQT_qIdx (j : ℤ) : cosQT (qIdx j) = cosQT j := by
  unfold cosQT
  rw [qIdx_qIdx]

lemma sinQT_qIdx (j : ℤ) : sinQT (qIdx j) = sinQT j := by
  unfold sinQT
  rw [qIdx_qIdx]

lemma qIdx_lt (j : ℤ) : qIdx j < 4 := by
  unfold qIdx
  omega

lemma qIdx_nonneg (j : ℤ) : 0 ≤ qIdx j := by
  unfold qIdx
  omega

lemma eulerToMat_qIdx (a b c : ℤ) :
    eulerToMat (qIdx a) (qIdx b) (qIdx c) = eulerToMat a b c := by
  unfold eulerToMat RXm RYm RZm
  rw [cosQT_qIdx, cosQT_qIdx, cosQT_qIdx, sinQT_qIdx, sinQT_qIdx, sinQT_qIdx]

lemma snapQuaternion_int (M : M3) :
    snapQuaternion M =
      eulerToMat (matToEulerQT M).1 (matToEulerQT M).2.1 (matToEulerQT M).2.2 := by
  unfold snapQuaternion
  simp only [round_intCast]

lemma snapQuaternion_eulerToMat_small (a b c : ℤ)
    (ha0 : 0 ≤ a) (ha : a < 4) (hb0 : 0 ≤ b) (hb : b < 4)
    (hc0 : 0 ≤ c) (hc : c < 4) :
    snapQuaternion (eulerToMat a b c) = eulerToMat a b c := by
  rw [snapQuaternion_int]
  interval_cases a <;> interval_cases b <;> interval_cases c <;> decide

lemma snapQuaternion_eulerToMat (a b c : ℤ) :
    snapQuaternion (eulerToMat a b c) = eulerToMat a b c := by
  rw [← eulerToMat_qIdx]
  exact snapQuaternion_eulerToMat_small _ _ _ (qIdx_nonneg a) (qIdx_lt a)
    (qIdx_nonneg b) (qIdx_lt b) (qIdx_nonneg c) (qIdx_lt c)

lemma snapQuaternion_oct {M : M3} (h : isOct M) : snapQuaternion M = M := by
  obtain ⟨a, b, c, rfl⟩ := h
  exact snapQuaternion_eulerToMat a b c

lemma isOct_id1 : isOct M3.id1 := ⟨0, 0, 0, by decide⟩

/-- The six slice-rotation generators (quarter turns about each axis in
each direction). -/
def genM (g : Fin 6) : M3 :=
  match g with
  | 0 => RXm 1
  | 1 => RXm 3
  | 2 => RYm 1
  | 3 => RYm 3
  | 4 => RZm 1
  | 5 => RZm 3

lemma gen_mul_euler : ∀ g : Fin 6, ∀ a b c : Fin 4, ∃ a2 b2 c2 : Fin 4,
    (genM g).mul (eulerToMat a.1 b.1 c.1) = eulerToMat a2.1 b2.1 c2.1 := by
  decide

lemma rotM_eq_genM (ax : Axis) (d : ℤ) (hd : d = 1 ∨ d = -1) :
    ∃ g : Fin 6, rotM ax d = genM g := by
  rcases hd with rfl | rfl <;> cases ax
  · exact ⟨0, rfl⟩
  · exact ⟨2, rfl⟩
  · exact ⟨4, rfl⟩
  · exact ⟨1, by decide⟩
  · exact ⟨3, by decide⟩
  · exact ⟨5, by decide⟩

lemma isOct_small {M : M3} (h : isOct M) :
    ∃ a b c : Fin 4, M = eulerToMat a.1 b.1 c.1 := by
  obtain ⟨a, b, c, rfl⟩ := h
  refine ⟨⟨(qIdx a).toNat, by have := qIdx_lt a; have := qIdx_nonneg a; omega⟩,
          ⟨(qIdx b).toNat, by have := qIdx_lt b; have := qIdx_nonneg b; omega⟩,
          ⟨(qIdx c).toNat, by have := qIdx_lt c; have := qIdx_nonneg c; omega⟩, ?_⟩
  rw [← eulerToMat_qIdx a b c]
  simp only [Int.toNat_of_nonneg (qIdx_nonneg a), Int.toNat_of_nonneg (qIdx_nonneg b),
    Int.toNat_of_nonneg (qIdx_nonneg c)]

lemma isOct_rotM_mul {M : M3} (ax : Axis) (d : ℤ) (hd : d = 1 ∨ d = -1)
    (h : isOct M) : isOct ((rotM ax d).mul M) := by
  obtain ⟨g, hg⟩ := rotM_eq_genM ax d hd
  obtain ⟨a, b, c, rfl⟩ := isOct_small h
  obtain ⟨a2, b2, c2, h2⟩ := gen_mul_euler g a b c
  rw [hg, h2]
  exact ⟨a2.1, b2.1, c2.1, rfl⟩

lemma snapQuaternion_rotM_mul {M : M3} (ax : Axis) (d : ℤ)
    (hd : d = 1 ∨ d = -1) (h : isOct M) :
    snapQuaternion ((rotM ax d).mul M) = (rotM ax d).mul M :=
  snapQuaternion_oct (isOct_rotM_mul ax d hd h)

lemma rotM_pow4 (ax : Axis) (d : ℤ) (hd : d = 1 ∨ d = -1) :
    (rotM ax d).mul ((rotM ax d).mul ((rotM ax d).mul (rotM ax d))) = M3.id1 := by
  rcases hd with rfl | rfl <;> cases ax <;> decide

lemma M3.mul_assoc (A B C : M3) : (A.mul B).mul C = A.mul (B.mul C) := by
  cases A
  cases B
  cases C
  simp only [M3.mul, M3.mk.injEq]
  refine ⟨?_, ?_, ?_, ?_, ?_, ?_, ?_, ?_, ?_⟩ <;> ring

lemma M3.id1_mul (M : M3) : M3.id1.mul M = M := by
  cases M
  simp [M3.mul, M3.id1]

lemma cosQT_one : cosQT 1 = 0 := by decide

lemma sinQT_one : sinQT 1 = 1 := by decide

lemma cosQT_neg_one : cosQT (-1) = 0 := by decide

lemma sinQT_neg_one : sinQT (-1) = -1 := by decide

lemma rotGrid_axisCoord (ax : Axis) (d : ℤ) (g : Grid3) :
    axisCoord ax (rotGrid ax d g) = axisCoord ax g := by
  cases ax <;> rfl


lemma rotGrid_x_one (g : Grid3) : rotGrid .x 1 g = (g.1, 2 - g.2.2, g.2.1) := by
  obtain ⟨gx, gy, gz⟩ := g
  simp [rotGrid, cosQT_one, sinQT_one]
  omega

lemma rotGrid_x_neg (g : Grid3) : rotGrid .x (-1) g = (g.1, g.2.2, 2 - g.2.1) := by
  obtain ⟨gx, gy, gz⟩ := g
  simp [rotGrid, cosQT_neg_one, sinQT_neg_one]
  omega

lemma rotGrid_y_one (g : Grid3) : rotGrid .y 1 g = (g.2.2, g.2.1, 2 - g.1) := by
  obtain ⟨gx, gy, gz⟩ := g
  simp [rotGrid, cosQT_one, sinQT_one]
  omega

lemma rotGrid_y_neg (g : Grid3) : rotGrid .y (-1) g = (2 - g.2.2, g.2.1, g.1) := by
  obtain ⟨gx, gy, gz⟩ := g
  simp [rotGrid, cosQT_neg_one, sinQT_neg_one]
  omega

lemma rotGrid_z_one (g : Grid3) : rotGrid .z 1 g = (2 - g.2.1, g.1, g.2.2) := by
  obtain ⟨gx, gy, gz⟩ := g
  simp [rotGrid, cosQT_one, sinQT_one]
  omega

lemma rotGrid_z_neg (g : Grid3) : rotGrid .z (-1) g = (g.2.1, 2 - g.1, g.2.2) := by
  obtain ⟨gx, gy, gz⟩ := g
  simp [rotGrid, cosQT_neg_one, sinQT_neg_one]
  omega

lemma rotGrid_range (ax : Axis) (d : ℤ) (hd : d = 1 ∨ d = -1) (g : Grid3)
    (h : gridInRange g) : gridInRange (rotGrid ax d g) := by
  obtain ⟨gx, gy, gz⟩ := g
  rcases hd with rfl | rfl <;> cases ax <;>
    simp only [rotGrid_x_one, rotGrid_x_neg, rotGrid_y_one, rotGrid_y_neg,
      rotGrid_z_one, rotGrid_z_neg, gridInRange] at h ⊢ <;> omega

lemma rotGrid_four (ax : Axis) (d : ℤ) (hd : d = 1 ∨ d = -1) (g : Grid3) :
    rotGrid ax d (rotGrid ax d (rotGrid ax d (rotGrid ax d g))) = g := by
  obtain ⟨gx, gy, gz⟩ := g
  rcases hd with rfl | rfl <;> cases ax <;>
    simp [rotGrid_x_one, rotGrid_x_neg, rotGrid_y_one, rotGrid_y_neg,
      rotGrid_z_one, rotGrid_z_neg, Prod.mk.injEq]

lemma rotGrid_cancel (ax : Axis) (d : ℤ) (hd : d = 1 ∨ d = -1) (g : Grid3) :
    rotGrid ax (-d) (rotGrid ax d g) = g := by
  obtain ⟨gx, gy, gz⟩ := g
  rcases hd with rfl | rfl <;> cases ax <;>
    simp [neg_neg, rotGrid_x_one, rotGrid_x_neg, rotGrid_y_one,
      rotGrid_y_neg, rotGrid_z_one, rotGrid_z_neg, Prod.mk.injEq]

lemma sliceStepGrid_cancel (a : Axis) (i d : ℤ) (hd : d = 1 ∨ d = -1)
    (g : Grid3) : sliceStepGrid a i (-d) (sliceStepGrid a i d g) = g := by
  unfold sliceStepGrid
  by_cases h : axisCoord a g = i
  · rw [if_pos h, if_pos (by rw [rotGrid_axisCoord]; exact h),
      rotGrid_cancel a d hd]
  · rw [if_neg h, if_neg h]

lemma sliceStepGrid_cancel2 (a : Axis) (i d : ℤ) (hd : d = 1 ∨ d = -1)
    (g : Grid3) : sliceStepGrid a i d (sliceStepGrid a i (-d) g) = g := by
  have hd2 : -d = 1 ∨ -d = -1 := by omega
  have := sliceStepGrid_cancel a i (-d) hd2 g
  rwa [neg_neg] at this

lemma sliceStepGrid_inj (a : Axis) (i d : ℤ) (hd : d = 1 ∨ d = -1) :
    Function.Injective (sliceStepGrid a i d) := by
  intro g1 g2 h
  have h2 := congrArg (sliceStepGrid a i (-d)) h
  rwa [sliceStepGrid_cancel a i d hd, sliceStepGrid_cancel a i d hd] at h2

lemma stepCube_rest (a : Axis) (i d : ℤ) (c : SubCube)
    (hpos : c.pos = gridToPos c.grid) :
    stepCube a i d c =
      if axisCoord a c.grid = i then
        { grid := rotGrid a d c.grid,
          pos := gridToPos (rotGrid a d c.grid),
          ori := snapQuaternion ((rotM a d).mul c.ori) }
      else c := by
  unfold stepCube
  by_cases h : axisCoord a c.grid = i
  · rw [if_pos h, if_pos h]
    simp only [hpos, rotVec_gridToPos, posToGrid_gridToPos]
  · rw [if_neg h, if_neg h]

lemma stepCube_grid_rest (a : Axis) (i d : ℤ) (c : SubCube)
    (hpos : c.pos = gridToPos c.grid) :
    (stepCube a i d c).grid = sliceStepGrid a i d c.grid := by
  rw [stepCube_rest a i d c hpos]
  unfold sliceStepGrid
  by_cases h : axisCoord a c.grid = i
  · rw [if_pos h, if_pos h]
  · rw [if_neg h, if_neg h]

lemma stepCube_unaffected (a : Axis) (i d : ℤ) (c : SubCube)
    (h : axisCoord a c.grid ≠ i) : stepCube a i d c = c := by
  unfold stepCube
  rw [if_neg h]

lemma list_map_self {α : Type} (l : List α) (f : α → α)
    (h : ∀ x ∈ l, f x = x) : l.map f = l := by
  induction l with
  | nil => rfl
  | cons x t ih =>
    simp only [List.map_cons, List.cons.injEq]
    exact ⟨h x (by simp), ih fun y hy => h y (by simp [hy])⟩

lemma smallCubes_rest : ∀ c ∈ smallCubes,
    c.pos = gridToPos c.grid ∧ c.ori = M3.id1 ∧ gridInRange c.grid := by
  intro c hc
  unfold smallCubes at hc
  simp only [List.mem_flatMap, List.mem_filterMap, List.mem_range] at hc
  obtain ⟨x, hx, y, hy, z, hz, hsome⟩ := hc
  by_cases he : isEdgeCell x y z
  · rw [if_pos he, Option.some.injEq] at hsome
    subst hsome
    refine ⟨rfl, rfl, ?_⟩
    unfold gridInRange
    simp only
    omega
  · rw [if_neg he] at hsome
    exact absurd hsome (by simp)

lemma rotateSlice_not_animating (a : Axis) (i d : ℤ) (r : Bool)
    (st : CubeState) (hA : st.isAnimating = false) :
    rotateSlice a i d r st =
      { st with
        cubes := st.cubes.map (stepCube a i d),
        moveHistory :=
          if r then st.moveHistory ++ [⟨a, i, d⟩] else st.moveHistory,
        isSolved := if r then false else st.isSolved,
        isAnimating := false } := by
  unfold rotateSlice
  rw [hA]
  rfl

lemma checkForSolve_cubes (st : CubeState) :
    (checkForSolve st).2.cubes = st.cubes := by
  unfold checkForSolve
  split <;> [rfl; split <;> rfl]

lemma checkForSolve_moveHistory (st : CubeState) :
    (checkForSolve st).2.moveHistory = st.moveHistory := by
  unfold checkForSolve
  split <;> [rfl; split <;> rfl]

lemma checkForSolve_isSolved (st : CubeState) :
    (checkForSolve st).2.isSolved = st.isSolved := by
  unfold checkForSolve
  split <;> [rfl; split <;> rfl]

lemma navigateToFace_moveHistory (f : Fin 6) (st : CubeState) :
    (navigateToFace f st).moveHistory = st.moveHistory := by
  unfold navigateToFace
  split
  · rfl
  · rw [checkForSolve_moveHistory]
    simp only
    unfold rotateSlice
    split <;> rfl

lemma navigateToFace_isSolved (f : Fin 6) (st : CubeState) :
    (navigateToFace f st).isSolved = st.isSolved := by
  unfold navigateToFace
  split
  · rfl
  · rw [checkForSolve_isSolved]
    simp only
    unfold rotateSlice
    split <;> rfl

lemma navigateToFace_fold_moveHistory (fs : List (Fin 6)) :
    ∀ st : CubeState,
      (fs.foldl (fun s f2 => navigateToFace f2 s) st).moveHistory
          = st.moveHistory ∧
      (fs.foldl (fun s f2 => navigateToFace f2 s) st).isSolved
          = st.isSolved := by
  induction fs with
  | nil => exact fun st => ⟨rfl, rfl⟩
  | cons f t ih =>
    intro st
    simp only [List.foldl_cons]
    refine ⟨?_, ?_⟩
    · rw [(ih (navigateToFace f st)).1, navigateToFace_moveHistory]
    · rw [(ih (navigateToFace f st)).2, navigateToFace_isSolved]

lemma list_map_congr {α β : Type} (l : List α) (f g : α → β)
    (h : ∀ x ∈ l, f x = g x) : l.map f = l.map g := by
  induction l with
  | nil => rfl
  | cons x t ih =>
    simp only [List.map_cons, List.cons.injEq]
    exact ⟨h x (by simp), ih fun y hy => h y (by simp [hy])⟩

lemma rotateSlice_map_grid (a : Axis) (i d : ℤ) (r : Bool) (st : CubeState)
    (hA : st.isAnimating = false)
    (hrest : ∀ c ∈ st.cubes, c.pos = gridToPos c.grid) :
    ((rotateSlice a i d r st).cubes.map fun c => c.grid)
      = (st.cubes.map fun c => c.grid).map (sliceStepGrid a i d) := by
  rw [rotateSlice_not_animating a i d r st hA]
  simp only [List.map_map]
  exact list_map_congr _ _ _ fun c hc => stepCube_grid_rest a i d c (hrest c hc)

lemma stepCube_keeps_rest (a : Axis) (i d : ℤ) (hd : d = 1 ∨ d = -1)
    (c : SubCube) (hpos : c.pos = gridToPos c.grid) (hoct : isOct c.ori) :
    (stepCube a i d c).pos = gridToPos (stepCube a i d c).grid ∧
    isOct (stepCube a i d c).ori := by
  rw [stepCube_rest a i d c hpos]
  by_cases h : axisCoord a c.grid = i
  · rw [if_pos h]
    exact ⟨rfl, by
      rw [snapQuaternion_rotM_mul a d hd hoct]
      exact isOct_rotM_mul a d hd hoct⟩
  · rw [if_neg h]
    exact ⟨hpos, hoct⟩

lemma rotM_four_mul (a : Axis) (d : ℤ) (hd : d = 1 ∨ d = -1) (N : M3) :
    (rotM a d).mul ((rotM a d).mul ((rotM a d).mul ((rotM a d).mul N))) = N := by
  rw [← M3.mul_assoc, ← M3.mul_assoc, ← M3.mul_assoc,
    show (((rotM a d).mul (rotM a d)).mul (rotM a d)).mul (rotM a d) = M3.id1 by
      rw [M3.mul_assoc, M3.mul_assoc]
      exact rotM_pow4 a d hd,
    M3.id1_mul]

lemma stepCube_affected (a : Axis) (i d : ℤ) (hd : d = 1 ∨ d = -1)
    (c : SubCube) (hpos : c.pos = gridToPos c.grid) (hoct : isOct c.ori)
    (h : axisCoord a c.grid = i) :
    stepCube a i d c =
      { grid := rotGrid a d c.grid,
        pos := gridToPos (rotGrid a d c.grid),
        ori := (rotM a d).mul c.ori } := by
  rw [stepCube_rest a i d c hpos, if_pos h, snapQuaternion_rotM_mul a d hd hoct]

lemma stepCube_four (a : Axis) (i d : ℤ) (hd : d = 1 ∨ d = -1) (c : SubCube)
    (hpos : c.pos = gridToPos c.grid) (hoct : isOct c.ori) :
    stepCube a i d (stepCube a i d (stepCube a i d (stepCube a i d c))) = c := by
  by_cases h : axisCoord a c.grid = i
  · obtain ⟨g, p, o⟩ := c
    simp only at hpos hoct h
    subst hpos
    have s1 : stepCube a i d ⟨g, gridToPos g, o⟩ =
        ⟨rotGrid a d g, gridToPos (rotGrid a d g), (rotM a d).mul o⟩ :=
      stepCube_affected a i d hd _ rfl hoct h
    have o1 : isOct ((rotM a d).mul o) := isOct_rotM_mul a d hd hoct
    have m1 : axisCoord a (rotGrid a d g) = i := by
      rw [rotGrid_axisCoord]
      exact h
    have s2 : stepCube a i d
        ⟨rotGrid a d g, gridToPos (rotGrid a d g), (rotM a d).mul o⟩ =
        ⟨rotGrid a d (rotGrid a d g), gridToPos (rotGrid a d (rotGrid a d g)),
          (rotM a d).mul ((rotM a d).mul o)⟩ :=
      stepCube_affected a i d hd _ rfl o1 m1
    have o2 : isOct ((rotM a d).mul ((rotM a d).mul o)) :=
      isOct_rotM_mul a d hd o1
    have m2 : axisCoord a (rotGrid a d (rotGrid a d g)) = i := by
      rw [rotGrid_axisCoord]
      exact m1
    have s3 : stepCube a i d
        ⟨rotGrid a d (rotGrid a d g), gridToPos (rotGrid a d (rotGrid a d g)),
          (rotM a d).mul ((rotM a d).mul o)⟩ =
        ⟨rotGrid a d (rotGrid a d (rotGrid a d g)),
          gridToPos (rotGrid a d (rotGrid a d (rotGrid a d g))),
          (rotM a d).mul ((rotM a d).mul ((rotM a d).mul o))⟩ :=
      stepCube_affected a i d hd _ rfl o2 m2
    have o3 : isOct ((rotM a d).mul ((rotM a d).mul ((rotM a d).mul o))) :=
      isOct_rotM_mul a d hd o2
    have m3 : axisCoord a (rotGrid a d (rotGrid a d (rotGrid a d g))) = i := by
      rw [rotGrid_axisCoord]
      exact m2
    have s4 : stepCube a i d
        ⟨rotGrid a d (rotGrid a d (rotGrid a d g)),
          gridToPos (rotGrid a d (rotGrid a d (rotGrid a d g))),
          (rotM a d).mul ((rotM a d).mul ((rotM a d).mul o))⟩ =
        ⟨rotGrid a d (rotGrid a d (rotGrid a d (rotGrid a d g))),
          gridToPos (rotGrid a d (rotGrid a d (rotGrid a d (rotGrid a d g)))),
          (rotM a d).mul ((rotM a d).mul ((rotM a d).mul ((rotM a d).mul o)))⟩ :=
      stepCube_affected a i d hd _ rfl o3 m3
    rw [s1, s2, s3, s4, rotGrid_four a d hd, rotM_four_mul a d hd]
  · rw [stepCube_unaffected a i d c h, stepCube_unaffected a i d c h,
      stepCube_unaffected a i d c h, stepCube_unaffected a i d c h]

lemma rotateSlice_state_inv (a : Axis) (i d : ℤ) (r : Bool) (s : CubeState)
    (hd : d = 1 ∨ d = -1) (hA : s.isAnimating = false)
    (hres : ∀ c ∈ s.cubes, c.pos = gridToPos c.grid ∧ isOct c.ori) :
    (rotateSlice a i d r s).isAnimating = false ∧
    (rotateSlice a i d r s).cubes = s.cubes.map (stepCube a i d) ∧
    ∀ c ∈ (rotateSlice a i d r s).cubes,
      c.pos = gridToPos c.grid ∧ isOct c.ori := by
  rw [rotateSlice_not_animating a i d r s hA]
  refine ⟨rfl, rfl, ?_⟩
  intro c hc
  simp only [List.mem_map] at hc
  obtain ⟨c0, hc0, rfl⟩ := hc
  exact stepCube_keeps_rest a i d hd c0 (hres c0 hc0).1 (hres c0 hc0).2

/-- C1: for every valid move applied from a rest state with in-range, unique
grid coordinates, a completed rotateSlice clears the isAnimating flag, acts on
the grid coordinates as the slice-restricted quarter-turn map (a bijection of
the grid with explicit inverse, so no coordinate is lost or duplicated),
leaves unaffected sub-cubes untouched, keeps every coordinate inside 0..2,
and keeps the coordinate list duplicate-free. -/
theorem rotateSlice_grid_permutation (a : Axis) (i d : ℤ) (r : Bool)
    (st : CubeState)
    (hi : i = 0 ∨ i = 1 ∨ i = 2)
    (hd : d = 1 ∨ d = -1)
    (hA : st.isAnimating = false)
    (hrest : ∀ c ∈ st.cubes, c.pos = gridToPos c.grid)
    (hrange : ∀ c ∈ st.cubes, gridInRange c.grid)
    (hnodup : (st.cubes.map fun c => c.grid).Nodup) :
    (rotateSlice a i d r st).isAnimating = false ∧
    ((rotateSlice a i d r st).cubes.map fun c => c.grid)
        = (st.cubes.map fun c => c.grid).map (sliceStepGrid a i d) ∧
    (∀ c ∈ st.cubes, axisCoord a c.grid ≠ i → stepCube a i d c = c) ∧
    (∀ c ∈ st.cubes, axisCoord a c.grid = i →
        (stepCube a i d c).grid = rotGrid a d c.grid ∧
        axisCoord a (stepCube a i d c).grid = i ∧
        gridInRange (stepCube a i d c).grid) ∧
    Function.Injective (sliceStepGrid a i d) ∧
    (∀ g : Grid3, sliceStepGrid a i (-d) (sliceStepGrid a i d g) = g ∧
        sliceStepGrid a i d (sliceStepGrid a i (-d) g) = g) ∧
    ((rotateSlice a i d r st).cubes.map fun c => c.grid).Nodup ∧
    (∀ c2 ∈ (rotateSlice a i d r st).cubes, gridInRange c2.grid) := by
  have hmap := rotateSlice_map_grid a i d r st hA hrest
  refine ⟨?_, hmap, ?_, ?_, sliceStepGrid_inj a i d hd, ?_, ?_, ?_⟩
  · rw [rotateSlice_not_animating a i d r st hA]
  · intro c hc hne
    exact stepCube_unaffected a i d c hne
  · intro c hc hmem
    rw [stepCube_grid_rest a i d c (hrest c hc)]
    unfold sliceStepGrid
    rw [if_pos hmem]
    refine ⟨rfl, ?_, rotGrid_range a d hd _ (hrange c hc)⟩
    rw [rotGrid_axisCoord]
    exact hmem
  · intro g
    exact ⟨sliceStepGrid_cancel a i d hd g, sliceStepGrid_cancel2 a i d hd g⟩
  · rw [hmap]
    exact List.Nodup.map (sliceStepGrid_inj a i d hd) hnodup
  · intro c2 hc2
    rw [rotateSlice_not_animating a i d r st hA] at hc2
    simp only [List.mem_map] at hc2
    obtain ⟨c, hc, rfl⟩ := hc2
    rw [stepCube_grid_rest a i d c (hrest c hc)]
    unfold sliceStepGrid
    by_cases hs : axisCoord a c.grid = i
    · rw [if_pos hs]
      exact rotGrid_range a d hd _ (hrange c hc)
    · rw [if_neg hs]
      exact hrange c hc

/-- C1 witness: the theorem applied to the initial state and the move
(x, 2, +1). -/
theorem rotateSlice_grid_permutation_witness :
    (rotateSlice .x 2 1 true initState).isAnimating = false :=
  (rotateSlice_grid_permutation .x 2 1 true initState
    (Or.inr (Or.inr rfl)) (Or.inl rfl) rfl
    (fun c hc => (smallCubes_rest c hc).1)
    (fun c hc => (smallCubes_rest c hc).2.2)
    (by decide)).1

/-- C2: at completion of a slice rotation, each affected sub-cube's grid
coordinate is recomputed by rounding its rotated continuous position to the
nearest grid slot, its position is re-derived exactly as
(grid - offset) * (SEGMENT_SIZE + GAP) on each axis, and its orientation is
snapQuaternion (Euler-decompose, round each angle to a multiple of 90
degrees, reconstruct) of the rotated orientation. -/
theorem rotateSlice_completion_snap (a : Axis) (i d : ℤ) (c : SubCube)
    (h : axisCoord a c.grid = i) :
    (stepCube a i d c).grid = posToGrid (rotVec a d c.pos) ∧
    (stepCube a i d c).pos = gridToPos ((stepCube a i d c).grid) ∧
    (stepCube a i d c).pos.1 =
      (((stepCube a i d c).grid.1 : ℚ) - offsetQ) * (SEGMENT_SIZE + GAP) ∧
    (stepCube a i d c).pos.2.1 =
      (((stepCube a i d c).grid.2.1 : ℚ) - offsetQ) * (SEGMENT_SIZE + GAP) ∧
    (stepCube a i d c).pos.2.2 =
      (((stepCube a i d c).grid.2.2 : ℚ) - offsetQ) * (SEGMENT_SIZE + GAP) ∧
    (stepCube a i d c).ori = snapQuaternion ((rotM a d).mul c.ori) := by
  unfold stepCube
  rw [if_pos h]
  exact ⟨rfl, rfl, rfl, rfl, rfl, rfl⟩

/-- C2 witness: the theorem applied to the rest sub-cube at grid (2,0,0)
under the move (x, 2, +1). -/
theorem rotateSlice_completion_snap_witness :
    (stepCube .x 2 1 ⟨(2, 0, 0), gridToPos (2, 0, 0), M3.id1⟩).pos =
      gridToPos ((stepCube .x 2 1 ⟨(2, 0, 0), gridToPos (2, 0, 0), M3.id1⟩).grid) :=
  (rotateSlice_completion_snap .x 2 1
    ⟨(2, 0, 0), gridToPos (2, 0, 0), M3.id1⟩ rfl).2.1

/-- C3: a rotateSlice call made while a rotation is in flight resolves
without changing anything: no rotation, no history entry, no state change. -/
theorem rotateSlice_inflight_noop (a : Axis) (i d : ℤ) (r : Bool)
    (st : CubeState) (h : st.isAnimating = true) :
    rotateSlice a i d r st = st := by
  unfold rotateSlice
  rw [h]
  rfl

/-- C3 witness: the theorem applied to an animating state. -/
theorem rotateSlice_inflight_noop_witness :
    rotateSlice .x 2 1 true { initState with isAnimating := true }
      = { initState with isAnimating := true } :=
  rotateSlice_inflight_noop .x 2 1 true _ rfl

/-- C4 counterexample: from the initial solved grid, the completed rotation
(x, 2, +1) sends the sub-cube resting at grid (2,0,0) to (2,2,0), not to the
(2,0,2) stated by the claim. -/
theorem rotateSlice_x2_counter :
    (stepCube .x 2 1 ⟨(2, 0, 0), gridToPos (2, 0, 0), M3.id1⟩).grid = (2, 2, 0)
      ∧ ((2, 2, 0) : Grid3) ≠ (2, 0, 2) := by
  constructor
  · rw [stepCube_grid_rest .x 2 1 _ rfl]
    decide
  · decide

/-- C4 amended: from the initial solved grid, the completed rotation
(x, 2, +1) moves each sub-cube of the x = 2 slice to the grid position of
the right-handed 90-degree x-axis rotation (y, z) to (2 - z, y); in
particular the sub-cube at (2,0,0) (list slot 17) ends at (2,2,0) and the
sub-cube at (2,2,0) (list slot 23) ends at (2,2,2). -/
theorem rotateSlice_x2_initial :
    ((rotateSlice .x 2 1 true initState).cubes.map fun c => c.grid)
        = (smallCubes.map fun c => c.grid).map (sliceStepGrid .x 2 1) ∧
    (∀ g : Grid3, g.1 = 2 →
        sliceStepGrid .x 2 1 g = (2, 2 - g.2.2, g.2.1)) ∧
    (smallCubes.map fun c => c.grid).get? 17 = some (2, 0, 0) ∧
    ((smallCubes.map fun c => c.grid).map (sliceStepGrid .x 2 1)).get? 17
        = some (2, 2, 0) ∧
    (smallCubes.map fun c => c.grid).get? 23 = some (2, 2, 0) ∧
    ((smallCubes.map fun c => c.grid).map (sliceStepGrid .x 2 1)).get? 23
        = some (2, 2, 2) := by
  refine ⟨rotateSlice_map_grid .x 2 1 true initState rfl
      (fun c hc => (smallCubes_rest c hc).1),
    ?_, by decide, by decide, by decide, by decide⟩
  intro g hg
  unfold sliceStepGrid
  rw [if_pos (show axisCoord .x g = 2 from hg), rotGrid_x_one, hg]

/-- C4 amended witness: the slice map applied at the corner (2,0,0). -/
theorem rotateSlice_x2_initial_witness :
    sliceStepGrid .x 2 1 (2, 0, 0) = (2, 2 - 0, 0) :=
  (rotateSlice_x2_initial).2.1 (2, 0, 0) rfl

/-- C5: four completed rotations of the same slice about the same axis in the
same direction, from a rest state whose orientations are axis-aligned, return
every sub-cube (grid coordinate, position and orientation) to its original
state. -/
theorem rotateSlice_four_cycle (a : Axis) (i d : ℤ) (r : Bool) (st : CubeState)
    (hd : d = 1 ∨ d = -1)
    (hA : st.isAnimating = false)
    (hrest : ∀ c ∈ st.cubes, c.pos = gridToPos c.grid)
    (hori : ∀ c ∈ st.cubes, isOct c.ori) :
    (rotateSlice a i d r (rotateSlice a i d r (rotateSlice a i d r
      (rotateSlice a i d r st)))).cubes = st.cubes := by
  have hres : ∀ c ∈ st.cubes, c.pos = gridToPos c.grid ∧ isOct c.ori :=
    fun c hc => ⟨hrest c hc, hori c hc⟩
  obtain ⟨a1, b1, r1⟩ := rotateSlice_state_inv a i d r st hd hA hres
  obtain ⟨a2, b2, r2⟩ := rotateSlice_state_inv a i d r _ hd a1 r1
  obtain ⟨a3, b3, r3⟩ := rotateSlice_state_inv a i d r _ hd a2 r2
  obtain ⟨a4, b4, r4⟩ := rotateSlice_state_inv a i d r _ hd a3 r3
  rw [b4, b3, b2, b1, List.map_map, List.map_map, List.map_map]
  apply list_map_self
  intro c hc
  simp only [Function.comp]
  exact stepCube_four a i d hd c (hres c hc).1 (hres c hc).2

/-- C5 witness: the theorem applied to the initial state and the move
(x, 2, +1). -/
theorem rotateSlice_four_cycle_witness :
    (rotateSlice .x 2 1 false (rotateSlice .x 2 1 false (rotateSlice .x 2 1
      false (rotateSlice .x 2 1 false initState)))).cubes = initState.cubes :=
  rotateSlice_four_cycle .x 2 1 false initState (Or.inl rfl) rfl
    (fun c hc => (smallCubes_rest c hc).1)
    (fun c hc => by
      rw [(smallCubes_rest c hc).2.1]
      exact isOct_id1)

/-- C6: the completion snap is idempotent: re-running the grid-position snap
(round to a grid slot, re-derive the exact position) or the orientation snap
(snapQuaternion) on an already snapped value changes nothing. -/
theorem snap_idempotent :
    (∀ p : V3, posSnap (posSnap p) = posSnap p) ∧
    (∀ M : M3, snapQuaternion (snapQuaternion M) = snapQuaternion M) := by
  constructor
  · intro p
    unfold posSnap
    rw [posToGrid_gridToPos]
  · intro M
    rw [snapQuaternion_int M, snapQuaternion_eulerToMat]

lemma faceGroupOk_iff (l : List ℕ) :
    faceGroupOk l = true ↔ l.length = 9 ∧ ∀ x ∈ l, ∀ y ∈ l, x = y := by
  unfold faceGroupOk
  by_cases h9 : l.length = 9
  · rw [if_neg (not_not_intro h9)]
    cases l with
    | nil => simp at h9
    | cons c0 t =>
      simp only [List.all_eq_true, beq_iff_eq]
      constructor
      · intro hall
        refine ⟨h9, ?_⟩
        intro x hx y hy
        rw [hall x hx, hall y hy]
      · intro hp
        intro x hx
        exact hp.2 x hx c0 (List.mem_cons_self c0 t)
  · rw [if_pos h9]
    simp only [Bool.false_eq_true, false_iff]
    intro hcon
    exact h9 hcon.1

/-- C7: checkIfSolved returns true exactly when, classifying every dot by
the first world axis direction whose threshold test its world position
passes, each of the six face groups holds exactly 9 color tags that are all
equal; any group with a different count or two differing tags makes it
false. -/
theorem checkIfSolved_iff (dots : List DotW) :
    checkIfSolved dots = true ↔
      ∀ f : FaceDir, (faceColors dots f).length = 9 ∧
        ∀ x ∈ faceColors dots f, ∀ y ∈ faceColors dots f, x = y := by
  unfold checkIfSolved
  rw [List.all_eq_true]
  constructor
  · intro h f
    have hf : f ∈ faceDirs := by cases f <;> simp [faceDirs]
    exact (faceGroupOk_iff _).mp (h f hf)
  · intro h f hf
    exact (faceGroupOk_iff _).mpr (h f)

/-- C8: checkForSolve never fires on the first check after load or after the
previous toggle: with the latch unset it returns false and only arms the
latch; with the latch set and the cube solved it toggles dark mode, applies
the matching visual state and resets the latch; with the latch set and the
cube unsolved it changes nothing. -/
theorem checkForSolve_latch (st : CubeState) :
    (st.hasBeenMixed = false →
      checkForSolve st = (false, { st with hasBeenMixed := true })) ∧
    (st.hasBeenMixed = true → checkIfSolved st.dots = true →
      checkForSolve st =
        (true,
          { st with
            isDarkMode := !st.isDarkMode,
            darkModeClass := !st.isDarkMode,
            bloomEnabled := !st.isDarkMode,
            chromaticEnabled := !st.isDarkMode,
            materialPreset := if !st.isDarkMode then -1 else st.materialPreset,
            hasBeenMixed := false })) ∧
    (st.hasBeenMixed = true → checkIfSolved st.dots = false →
      checkForSolve st = (false, st)) := by
  refine ⟨?_, ?_, ?_⟩
  · intro h
    simp [checkForSolve, h]
  · intro h1 h2
    simp [checkForSolve, h1, h2]
  · intro h1 h2
    simp [checkForSolve, h1, h2]

/-- C8 witness: the theorem applied to the freshly loaded state. -/
theorem checkForSolve_latch_witness :
    checkForSolve initState = (false, { initState with hasBeenMixed := true }) :=
  (checkForSolve_latch initState).1 rfl

/-- C9: every face-navigation move rotates an outer slice (index 0 or 2,
never the middle slice 1), and consequently the grid coordinate of each of
the six face-center sub-cubes is fixed by every face-navigation move, both
as the abstract slice map and through the full completion step of a rest
sub-cube. -/
theorem faceToMove_outer_slices :
    (∀ f : Fin 6, (faceToMove f).index = 0 ∨ (faceToMove f).index = 2) ∧
    (∀ f : Fin 6, ∀ g ∈ faceCenterGrids,
      sliceStepGrid (faceToMove f).axis (faceToMove f).index
        (faceToMove f).dir g = g) ∧
    (∀ f : Fin 6, ∀ g ∈ faceCenterGrids,
      (stepCube (faceToMove f).axis (faceToMove f).index (faceToMove f).dir
        ⟨g, gridToPos g, M3.id1⟩).grid = g) := by
  have h2 : ∀ f : Fin 6, ∀ g ∈ faceCenterGrids,
      sliceStepGrid (faceToMove f).axis (faceToMove f).index
        (faceToMove f).dir g = g := by decide
  refine ⟨by decide, h2, ?_⟩
  intro f g hg
  rw [stepCube_grid_rest _ _ _ _ rfl]
  exact h2 f g hg

/-- C9 witness: the theorem applied to face 0 and the face-center (2,1,1). -/
theorem faceToMove_outer_slices_witness :
    (stepCube (faceToMove 0).axis (faceToMove 0).index (faceToMove 0).dir
      ⟨(2, 1, 1), gridToPos (2, 1, 1), M3.id1⟩).grid = (2, 1, 1) :=
  (faceToMove_outer_slices).2.2 0 (2, 1, 1) (by decide)

/-- C10: face navigation always rotates with recordMove = false, so it never
appends to the move history and never clears the isSolved flag, over any
sequence of navigation requests (in particular from the initial state the
history stays empty and isSolved stays true), while the slice rotation
itself is still applied to the sub-cubes. -/
theorem navigateToFace_no_record (f : Fin 6) (st : CubeState) :
    (navigateToFace f st).moveHistory = st.moveHistory ∧
    (navigateToFace f st).isSolved = st.isSolved ∧
    (∀ fs : List (Fin 6),
      (fs.foldl (fun s f2 => navigateToFace f2 s) st).moveHistory
          = st.moveHistory ∧
      (fs.foldl (fun s f2 => navigateToFace f2 s) st).isSolved
          = st.isSolved) ∧
    (∀ fs : List (Fin 6),
      (fs.foldl (fun s f2 => navigateToFace f2 s) initState).moveHistory
          = [] ∧
      (fs.foldl (fun s f2 => navigateToFace f2 s) initState).isSolved
          = true) ∧
    (st.isAnimating = false → st.introComplete = true →
      (navigateToFace f st).cubes =
        (rotateSlice (faceToMove f).axis (faceToMove f).index
          (faceToMove f).dir false st).cubes) := by
  refine ⟨navigateToFace_moveHistory f st, navigateToFace_isSolved f st,
    fun fs => navigateToFace_fold_moveHistory fs st,
    fun fs => navigateToFace_fold_moveHistory fs initState, ?_⟩
  intro hA hI
  unfold navigateToFace
  rw [hA, hI]
  simp [checkForSolve_cubes]

/-- C10 witness: the theorem applied to face 0 and the initial state. -/
theorem navigateToFace_no_record_witness :
    (navigateToFace 0 initState).cubes =
      (rotateSlice (faceToMove 0).axis (faceToMove 0).index
        (faceToMove 0).dir false initState).cubes :=
  (navigateToFace_no_record 0 initState).2.2.2.2 rfl rfl
